import Mathlib

/-!
Shallow embedding of the Invoice-Extractor core: the vendor extractor
entry points (`get_details` of myntra, onemg, instamart, universal1,
amazon), the Exporter (`create_excel.convert_df_to_xlsx`) and the
Dispatcher/Orchestrator (`back.extract_details`, `back.process_files`).

Pandas DataFrames are modelled as a column list plus a row grid of cells;
the PDF/regex helpers that the entry points call are abstracted as
environment records supplying their outcomes, while the control flow of
each translated function (existence checks, try/except placement, result
construction) follows the Python source line by line.  Python exceptions
are modelled with `Except String`.
-/

namespace InvoiceExtractor

instance {ε α : Type} [DecidableEq ε] [DecidableEq α] : DecidableEq (Except ε α) :=
  fun x y =>
    match x, y with
    | .ok a, .ok b =>
        if h : a = b then .isTrue (by rw [h])
        else .isFalse (fun hh => h (Except.ok.inj hh))
    | .error a, .error b =>
        if h : a = b then .isTrue (by rw [h])
        else .isFalse (fun hh => h (Except.error.inj hh))
    | .ok _, .error _ => .isFalse Except.noConfusion
    | .error _, .ok _ => .isFalse Except.noConfusion

/-- A single pandas cell: null (NaN), a string, or a numeric value
(numeric amounts are modelled as exact rationals). -/
inductive Cell where
  | null : Cell
  | str (s : String) : Cell
  | num (q : ℚ) : Cell
deriving DecidableEq, Repr

/-- A pandas DataFrame: named columns and a grid of rows. -/
structure Df where
  cols : List String
  rows : List (List Cell)
deriving DecidableEq, Repr

/-- `pd.DataFrame().empty`: true when either axis has length zero. -/
def Df.empty (d : Df) : Bool := d.rows.isEmpty || d.cols.isEmpty

/-- `pd.DataFrame()`: the empty frame. -/
def Df.emptyDf : Df := ⟨[], []⟩

/-- `pd.DataFrame([row_dict])`: one data row from a field/value record. -/
def df1row (kvs : List (String × String)) : Df :=
  ⟨kvs.map Prod.fst, [kvs.map (fun kv => Cell.str kv.2)]⟩

/-- `pd.DataFrame(list(d.items()), columns=["Field","Value"])`. -/
def fieldValueDf (kvs : List (String × String)) : Df :=
  ⟨["Field", "Value"], kvs.map (fun kv => [Cell.str kv.1, Cell.str kv.2])⟩

/-- A value stored in an extractor result dict: a DataFrame or a bool
(the `has_items` flag). -/
inductive PdVal where
  | df (d : Df) : PdVal
  | bool (b : Bool) : PdVal
deriving DecidableEq, Repr

/-- The value an extractor returns to the Dispatcher: either a dict of
named values (the two-table shape) or a bare DataFrame (legacy shape). -/
inductive ExtractorReturn where
  | dict (entries : List (String × PdVal)) : ExtractorReturn
  | frame (d : Df) : ExtractorReturn
deriving DecidableEq, Repr

/-- Python `d.get(key)` on an insertion-ordered dict with unique keys. -/
def dictFind (key : String) : List (String × PdVal) → Option PdVal
  | [] => none
  | kv :: rest => if kv.1 = key then some kv.2 else dictFind key rest

/-- Python `key in d`. -/
def hasKey (key : String) (entries : List (String × PdVal)) : Bool :=
  (dictFind key entries).isSome

/-- `create_empty_result()` as defined in the vendor extractor modules:
both tables empty and `has_items` false. -/
def emptyResult : ExtractorReturn :=
  .dict [("invoice_summary", .df Df.emptyDf),
         ("item_details", .df Df.emptyDf),
         ("has_items", .bool false)]

/-- Accessing `.empty` on a dict value: raises AttributeError when the
value is a bool rather than a DataFrame. -/
def dfOrAttrError : PdVal → Except String Df
  | .df d => .ok d
  | .bool _ => .error "AttributeError: bool object has no attribute empty"

/-- back.py lines 62-70: the flexible has-data check, with Python
short-circuit evaluation of the `or`. -/
def hasDataOf : ExtractorReturn → Except String Bool
  | .dict entries =>
      match dfOrAttrError ((dictFind "invoice_summary" entries).getD (.df Df.emptyDf)) with
      | .error msg => .error msg
      | .ok d1 =>
          if !d1.empty then .ok true
          else
            match dfOrAttrError ((dictFind "item_details" entries).getD (.df Df.emptyDf)) with
            | .error msg => .error msg
            | .ok d2 => .ok (!d2.empty)
  | .frame d => .ok (!d.empty)

/-! ## Exporter: create_excel.convert_df_to_xlsx -/

/-- The sheets of a written workbook, in written order. -/
abbrev Workbook := List (String × Df)

/-- Environment of the export call: which of its fallible filesystem
steps raise, and with what message. `os.makedirs` (line 15) sits outside
the try block; the full multi-sheet write and the single-sheet fallback
write each sit in their own try. -/
structure ExportEnv where
  makedirsError : Option String
  writerError : Option String
  fallbackError : Option String
deriving DecidableEq, Repr

/-- An export environment in which no filesystem step fails. -/
def cleanExport : ExportEnv := ⟨none, none, none⟩

/-- The placeholder frame `pd.DataFrame({"Message": ["No item details found"]})`
written when `item_details` is empty (create_excel.py line 34). -/
def placeholderDf : Df := ⟨["Message"], [[Cell.str "No item details found"]]⟩

/-- create_excel.py lines 22-36: the two-sheet layout for the two-table
shape. The Invoice Summary sheet is written only when `invoice_summary`
is non-empty; the Item Details sheet is always written, with a
placeholder row when `item_details` is empty. -/
def twoTableSheets (d1 d2 : Df) : Workbook :=
  (if !d1.empty then [("Invoice Summary", d1)] else []) ++
  (if !d2.empty then [("Item Details", d2)] else [("Item Details", placeholderDf)])

/-- The body of the `pd.ExcelWriter` block (create_excel.py lines 19-44):
what sheets it writes, or the exception it raises on malformed values. -/
def mainWrite : ExtractorReturn → Except String Workbook
  | .dict entries =>
      if hasKey "invoice_summary" entries && hasKey "item_details" entries then
        match dfOrAttrError ((dictFind "invoice_summary" entries).getD (.df Df.emptyDf)) with
        | .error msg => .error msg
        | .ok d1 =>
            match dfOrAttrError ((dictFind "item_details" entries).getD (.df Df.emptyDf)) with
            | .error msg => .error msg
            | .ok d2 => .ok (twoTableSheets d1 d2)
      else
        .ok (entries.filterMap (fun kv =>
          match kv.2 with
          | .df d => some (kv.1, d)
          | .bool _ => none))
  | .frame d => .ok [("Data", d)]

/-- create_excel.py lines 51-57: the single-sheet fallback write; returns
the sheet it writes, if any. -/
def fallbackWrite : ExtractorReturn → Option Workbook
  | .dict entries =>
      match dictFind "invoice_summary" entries with
      | some (.df d) => some [("Sheet1", d)]
      | _ => none
  | .frame d => some [("Sheet1", d)]

/-- create_excel.convert_df_to_xlsx: returns the workbook written (none
when both write attempts failed and were swallowed); raises only when
`os.makedirs` raises, since that call is outside the try block. -/
def convert_df_to_xlsx (data : ExtractorReturn) (env : ExportEnv) :
    Except String (Option Workbook) :=
  match env.makedirsError with
  | some msg => .error msg
  | none =>
      match env.writerError, mainWrite data with
      | none, .ok wb => .ok (some wb)
      | _, _ =>
          if env.fallbackError.isSome then .ok none
          else .ok (fallbackWrite data)

/-! ## Dispatcher: back.extract_details and back.process_files -/

/-- back.py lines 24-44: the merged registry `ALL_METHODS`, as the list
of registered vendor tags. -/
def ALL_METHODS : List String :=
  ["mandal", "myntra", "spella", "reliance_digital", "flipkart", "onemg",
   "swiggy", "meesho", "zomato", "instamart", "universal1", "universal2",
   "amazon", "gemini"]

/-- `ALL_METHODS.get(method)` succeeds: the method tag is registered. -/
def registered (method : String) : Bool := ALL_METHODS.contains method

/-- The per-file status record built by back.extract_details. -/
structure ExtractionStatus where
  model_used : String
  status : String
  data : Option ExtractorReturn
  error : Option String
deriving DecidableEq, Repr

/-- Environment of one dispatch: what the looked-up extractor call
returns (or raises), and how the export call behaves. -/
structure DispatchEnv where
  extractorOutcome : Except String ExtractorReturn
  exportEnv : ExportEnv

/-- Observable outcome of back.extract_details: the returned status plus
the side effects performed (whether the extractor was invoked, whether
export was attempted, and the workbook written, if any). -/
structure DispatchOutcome where
  st : ExtractionStatus
  calledExtractor : Bool
  exportAttempted : Bool
  workbook : Option Workbook

/-- back.py lines 46-96: look up the method; on a miss return failed
"Extractor not found" with no side effects; otherwise run the extractor
inside try/except, check for data, export on data, and report. -/
def extract_details (file_name method : String) (e : DispatchEnv) :
    DispatchOutcome :=
  if registered method then
    match e.extractorOutcome with
    | .error msg =>
        ⟨⟨method, "failed", none, some msg⟩, true, false, none⟩
    | .ok result =>
        match hasDataOf result with
        | .error msg =>
            ⟨⟨method, "failed", none, some msg⟩, true, false, none⟩
        | .ok true =>
            match convert_df_to_xlsx result e.exportEnv with
            | .error msg =>
                ⟨⟨method, "failed", none, some msg⟩, true, true, none⟩
            | .ok wb =>
                ⟨⟨method, "success", some result, none⟩, true, true, wb⟩
        | .ok false =>
            ⟨⟨method, "failed", none, some "No data extracted"⟩, true, false, none⟩
  else
    ⟨⟨method, "failed", none, some "Extractor not found"⟩, false, false, none⟩

/-- `results[file_name] = value` on a Python dict modelled as an
insertion-ordered association list: overwrite in place when the key is
present, append otherwise. -/
def dictInsert (m : List (String × ExtractionStatus)) (k : String)
    (v : ExtractionStatus) : List (String × ExtractionStatus) :=
  if m.any (fun p => p.1 = k) then
    m.map (fun p => if p.1 = k then (k, v) else p)
  else
    m ++ [(k, v)]

/-- back.py lines 98-102: process each file in order against the one
method, collecting per-file statuses keyed by file name. The per-file
environment `world` supplies each file's extractor/export behavior. -/
def process_files (file_list : List String) (method : String)
    (world : String → DispatchEnv) : List (String × ExtractionStatus) :=
  file_list.foldl
    (fun acc f => dictInsert acc f (extract_details f method (world f)).st) []

/-! ## Vendor extractor: approaches/myntra.py -/

namespace Myntra

/-- One match of the item-row regex in myntra.extract_detailed_items
(lines 143-161), with the numeric captures already parsed. -/
structure Match where
  desc : String
  hsn : String
  rate : ℚ
  tax_type : String
  qty : ℤ
  gross_amt : ℚ
  disc_amt : ℚ
  other_amt : ℚ
  taxable_amt : ℚ
  tax_amt : ℚ
  total_amt : ℚ
deriving DecidableEq, Repr

/-- One item record appended by myntra.extract_detailed_items. -/
structure Item where
  product_description : String
  hsn_code : String
  tax_rate : ℚ
  tax_type : String
  quantity : ℤ
  gross_amount : ℚ
  discount : ℚ
  other_charges : ℚ
  taxable_amount : ℚ
  cgst_amount : ℚ
  sgst_ugst_amount : ℚ
  igst_amount : ℚ
  cess_amount : ℚ
  total_amount : ℚ
deriving DecidableEq, Repr

/-- myntra.py lines 162-184: build one item record from a match,
splitting the combined tax amount into CGST/SGST halves unless the tax
type is IGST, in which case the whole amount is IGST. -/
def buildItem (m : Match) : Item :=
  let breakdown : ℚ × ℚ × ℚ :=
    if m.tax_type = "IGST" then (m.tax_amt, 0, 0)
    else (0, m.tax_amt / 2, m.tax_amt / 2)
  { product_description := m.desc
    hsn_code := m.hsn
    tax_rate := m.rate
    tax_type := m.tax_type
    quantity := m.qty
    gross_amount := m.gross_amt
    discount := m.disc_amt
    other_charges := m.other_amt
    taxable_amount := m.taxable_amt
    cgst_amount := breakdown.2.1
    sgst_ugst_amount := breakdown.2.2
    igst_amount := breakdown.1
    cess_amount := 0
    total_amount := m.total_amt }

/-- `pd.DataFrame(items)` for a non-empty myntra item list. -/
def itemsDf (items : List Item) : Df :=
  ⟨["product_description", "hsn_code", "tax_rate", "tax_type", "quantity",
    "gross_amount", "discount", "other_charges", "taxable_amount",
    "cgst_amount", "sgst_ugst_amount", "igst_amount", "cess_amount",
    "total_amount"],
   items.map (fun it =>
     [Cell.str it.product_description, Cell.str it.hsn_code,
      Cell.num it.tax_rate, Cell.str it.tax_type, Cell.num it.quantity,
      Cell.num it.gross_amount, Cell.num it.discount,
      Cell.num it.other_charges, Cell.num it.taxable_amount,
      Cell.num it.cgst_amount, Cell.num it.sgst_ugst_amount,
      Cell.num it.igst_amount, Cell.num it.cess_amount,
      Cell.num it.total_amount])⟩

/-- Environment of one myntra.get_details call: the file existence
check, the text returned by extract_text (which never raises), whether
some statement inside the try body raises (e.g. a float parse error),
the assembled invoice-summary row, and the parsed item matches. -/
structure Env where
  fileExists : Bool
  text : String
  bodyError : Option String
  invoiceRow : List (String × String)
  itemMatches : List Match

/-- myntra.py lines 213-258: the get_details entry point. The whole body
after the existence check sits inside try/except, so it never raises;
the file-missing, empty-text and exception paths all return
create_empty_result(). -/
def get_details (e : Env) : Except String ExtractorReturn :=
  .ok <|
    if !e.fileExists then emptyResult
    else if e.text.trim = "" then emptyResult
    else
      match e.bodyError with
      | some _ => emptyResult
      | none =>
          let items := e.itemMatches.map buildItem
          let items_df := if items.isEmpty then Df.emptyDf else itemsDf items
          .dict [("invoice_summary", .df (df1row e.invoiceRow)),
                 ("item_details", .df items_df),
                 ("has_items", .bool (!items_df.empty))]

end Myntra

/-! ## Vendor extractor: approaches/onemg.py -/

namespace Onemg

/-- Environment of one onemg.get_details call: existence check outcome,
whether some statement in the try body raises, the metadata record from
extract_metadata_1mg (which never raises and always returns its
initialized key set) and the item table from extract_items_1mg (which
never raises). -/
structure Env where
  fileExists : Bool
  bodyError : Option String
  metadata : List (String × String)
  items : Df

/-- onemg.py lines 33-37: add each metadata column (except Source_File)
to the item table. -/
def addMetaCols (d : Df) (metadata : List (String × String)) : Df :=
  let kvs := metadata.filter (fun kv => kv.1 ≠ "Source_File")
  ⟨d.cols ++ kvs.map Prod.fst,
   d.rows.map (fun r => r ++ kvs.map (fun kv => Cell.str kv.2))⟩

/-- onemg.py lines 7-50: the get_details entry point. The whole body,
including the existence check, sits inside try/except and never raises. -/
def get_details (e : Env) : Except String ExtractorReturn :=
  .ok <|
    match e.bodyError with
    | some _ => emptyResult
    | none =>
        if !e.fileExists then emptyResult
        else
          let item_details :=
            if !e.items.empty then addMetaCols e.items e.metadata else e.items
          .dict [("invoice_summary", .df (df1row e.metadata)),
                 ("item_details", .df item_details),
                 ("has_items", .bool (!item_details.empty))]

end Onemg

/-! ## Vendor extractor: approaches/instamart.py -/

namespace Instamart

/-- Environment of one instamart.get_details call. `openOutcome` is what
`pdfplumber.open(...)`/`pdf.pages[0].extract_text()` yields: an exception,
or the page text (which `extract_text` can return as None, modelled as
`none`). `headerFields` abstracts the regex results of extract_header;
`items` is the frame built by extract_items_table_fixed, whose own try
block swallows its internal errors. -/
structure Env where
  fileExists : Bool
  openOutcome : Except String (Option String)
  headerFields : List (String × String)
  items : Df

/-- instamart.py lines 87-103: the get_details entry point. Only the
file-existence check guards this function: there is no try/except around
extract_instamart_invoice, so an exception from opening the PDF
propagates to the caller, and a None page text makes the first
`re.search(pat, None)` in extract_header raise TypeError. -/
def get_details (e : Env) : Except String ExtractorReturn :=
  if !e.fileExists then .ok emptyResult
  else
    match e.openOutcome with
    | .error msg => .error msg
    | .ok none =>
        .error "TypeError: expected string or bytes-like object"
    | .ok (some _) =>
        .ok (.dict [("invoice_summary", .df (fieldValueDf e.headerFields)),
                    ("item_details", .df e.items),
                    ("has_items", .bool (!e.items.empty))])

end Instamart

/-! ## Vendor extractor: approaches/universal1.py -/

namespace Universal1

/-- universal1.keep_only_nonempty_columns (lines 111-116): drop every
column whose cells are all null or blank strings. -/
def cellBlank : Cell → Bool
  | .null => true
  | .str s => s.trim = ""
  | .num _ => false

/-- A column index is kept when some row has a non-blank cell there. -/
def keepCol (rows : List (List Cell)) (j : ℕ) : Bool :=
  rows.any (fun r => !cellBlank (r.getD j Cell.null))

/-- The column filter applied to a whole frame. -/
def keep_only_nonempty_columns (d : Df) : Df :=
  let keep := (List.range d.cols.length).filter (keepCol d.rows)
  ⟨keep.map (fun j => d.cols.getD j ""),
   d.rows.map (fun r => keep.map (fun j => r.getD j Cell.null))⟩

/-- Environment of one universal1.get_details call. After the existence
check the function loads the vectorizer/classifier and YOLO model, masks
tables in the PDF and extracts text — none of these steps is wrapped in
try/except inside get_details, so any of them raising propagates;
extract_tables_with_fallback catches its own errors and returns a table
list; extract_fields never raises and returns the fixed field set. -/
structure Env where
  fileExists : Bool
  modelLoadError : Option String
  maskError : Option String
  textError : Option String
  fields : List (String × String)
  tables : List Df

/-- `pd.concat(tables, ignore_index=True)`: stack the table rows; the
merged column set is abstracted as the first table's columns. -/
def concatTables (tables : List Df) : Df :=
  ⟨((tables.head?).getD Df.emptyDf).cols, tables.flatMap Df.rows⟩

/-- universal1.py lines 120-170: the get_details entry point. The
file-missing path returns an empty result, but model loading, table
masking and text extraction raise through to the caller. -/
def get_details (e : Env) : Except String ExtractorReturn :=
  if !e.fileExists then .ok emptyResult
  else
    match e.modelLoadError with
    | some msg => .error msg
    | none =>
        match e.maskError with
        | some msg => .error msg
        | none =>
            match e.textError with
            | some msg => .error msg
            | none =>
                let item_details_df :=
                  if e.tables.isEmpty then Df.emptyDf
                  else keep_only_nonempty_columns (concatTables e.tables)
                let invoice_summary_df :=
                  keep_only_nonempty_columns (df1row e.fields)
                .ok (.dict
                  [("invoice_summary", .df invoice_summary_df),
                   ("item_details", .df item_details_df),
                   ("has_items", .bool (!item_details_df.empty))])

end Universal1

/-! ## Vendor extractor: approaches/amazon.py -/

namespace Amazon

/-- Environment of one amazon.get_details call. `extractOutcome` is what
AmazonInvoiceExtractor.extract_invoice produces: `none` when any step
raised (missing file, non-PDF, table extraction, Excel save — all caught
there, yielding success=False), or the header record and the list of
extracted tables on success (extract_tables only keeps non-empty
frames). `readBackError` is whether re-opening the just-written workbook
with pd.ExcelFile raises. -/
structure Env where
  extractOutcome : Option (List (String × String) × List Df)
  readBackError : Option String

/-- amazon.py lines 222-250: the get_details entry point. On failure it
returns empty frames and `has_items = (0 > 0)`. On success it sets
`item_details` by re-reading the first Table_* sheet of the workbook it
just saved (empty frame when that read raises, or when there is no table
sheet), while `has_items` is computed from `tables_count` alone. -/
def get_details (e : Env) : Except String ExtractorReturn :=
  .ok <|
    match e.extractOutcome with
    | none =>
        .dict [("invoice_summary", .df Df.emptyDf),
               ("item_details", .df Df.emptyDf),
               ("has_items", .bool (decide (0 < 0)))]
    | some (header, tables) =>
        let item_details : Df :=
          match e.readBackError with
          | some _ => Df.emptyDf
          | none =>
              match tables.head? with
              | some t => t
              | none => Df.emptyDf
        let invoice_summary : Df :=
          if header.isEmpty then Df.emptyDf else df1row header
        .dict [("invoice_summary", .df invoice_summary),
               ("item_details", .df item_details),
               ("has_items", .bool (decide (0 < tables.length)))]

end Amazon

/-! ## Helper predicates for the stated properties -/

/-- A two-table result is has-items-consistent when its `has_items`
entry equals the non-emptiness of its `item_details` entry. -/
def hasItemsConsistent (r : ExtractorReturn) : Bool :=
  match r with
  | .dict entries =>
      match dictFind "item_details" entries, dictFind "has_items" entries with
      | some (.df d), some (.bool b) => b = !d.empty
      | _, _ => true
  | .frame _ => true

/-- The per-file contract of an ExtractionStatus: success with data
populated and no error, or failed with error populated and no data. -/
def goodStatus (s : ExtractionStatus) : Prop :=
  (s.status = "success" ∧ s.data.isSome = true ∧ s.error = none) ∨
  (s.status = "failed" ∧ s.error.isSome = true ∧ s.data = none)

/-- The first list starts the second. -/
def leadsWith : List Char → List Char → Bool
  | [], _ => true
  | _ :: _, [] => false
  | a :: as, b :: bs => a = b && leadsWith as bs

/-- The first list occurs somewhere inside the second. -/
def occursIn (needle : List Char) : List Char → Bool
  | [] => leadsWith needle []
  | c :: cs => leadsWith needle (c :: cs) || occursIn needle cs

/-- Substring test on the character lists of two strings. -/
def strContains (hay needle : String) : Bool :=
  occursIn needle.toList hay.toList

/-! ## General lemmas -/

theorem dictFind_cons_eq (k : String) (v : PdVal) (rest : List (String × PdVal)) :
    dictFind k ((k, v) :: rest) = some v := by
  simp [dictFind]

theorem dictFind_cons_ne (k k' : String) (v : PdVal) (rest : List (String × PdVal))
    (h : ¬ k' = k) : dictFind k ((k', v) :: rest) = dictFind k rest := by
  simp [dictFind, h]

theorem hasItemsConsistent_mk (v : PdVal) (d : Df) :
    hasItemsConsistent
      (.dict [("invoice_summary", v), ("item_details", .df d),
              ("has_items", .bool (!d.empty))]) = true := by
  simp only [hasItemsConsistent]
  rw [dictFind_cons_ne "item_details" "invoice_summary" v _ (by decide),
      dictFind_cons_eq,
      dictFind_cons_ne "has_items" "invoice_summary" v _ (by decide),
      dictFind_cons_ne "has_items" "item_details" (.df d) _ (by decide),
      dictFind_cons_eq]
  simp

/-- When `os.makedirs` does not raise, the export call never raises:
every other failure is caught inside convert_df_to_xlsx. -/
theorem convert_ok (data : ExtractorReturn) (env : ExportEnv)
    (h : env.makedirsError = none) :
    ∃ w, convert_df_to_xlsx data env = .ok w := by
  unfold convert_df_to_xlsx
  rw [h]
  rcases h1 : env.writerError with _ | m1 <;>
    rcases h2 : mainWrite data with wb | m2 <;>
      rcases h3 : env.fallbackError with _ | m3 <;>
        exact ⟨_, rfl⟩

/-- hasDataOf on a two-table dict whose tables are DataFrames: data is
present iff either table is non-empty. -/
theorem hasDataOf_dict (entries : List (String × PdVal)) (d1 d2 : Df)
    (h1 : dictFind "invoice_summary" entries = some (.df d1))
    (h2 : dictFind "item_details" entries = some (.df d2)) :
    hasDataOf (.dict entries) = .ok (!d1.empty || !d2.empty) := by
  simp only [hasDataOf, h1, h2, Option.getD_some, dfOrAttrError]
  cases hd : d1.empty <;> simp [hd]

/-- The dispatcher on an extractor that returns normally, when
`os.makedirs` does not raise in the export: the status record depends
only on the has-data check. -/
theorem extract_details_ok_st (file method : String)
    (outcome : Except String ExtractorReturn) (ex : ExportEnv)
    (r : ExtractorReturn) (b : Bool)
    (hreg : registered method = true)
    (hout : outcome = .ok r)
    (hhd : hasDataOf r = .ok b)
    (hmk : ex.makedirsError = none) :
    (extract_details file method ⟨outcome, ex⟩).st =
      (if b then ⟨method, "success", some r, none⟩
       else ⟨method, "failed", none, some "No data extracted"⟩) := by
  subst hout
  obtain ⟨w, hw⟩ := convert_ok r ex hmk
  simp only [extract_details, hreg, if_true, hhd, hw]
  cases b <;> simp

/-- The dispatcher on an extractor call that raises. -/
theorem extract_details_error_st (file method msg : String) (ex : ExportEnv)
    (hreg : registered method = true) :
    (extract_details file method ⟨.error msg, ex⟩).st
      = ⟨method, "failed", none, some msg⟩ := by
  simp [extract_details, hreg]

/-- Every status record the dispatcher can return satisfies the
success-with-data / failed-with-error contract. -/
theorem extract_details_good (f m : String) (e : DispatchEnv) :
    goodStatus (extract_details f m e).st := by
  unfold extract_details
  split
  · split
    · exact Or.inr ⟨rfl, rfl, rfl⟩
    · split
      · exact Or.inr ⟨rfl, rfl, rfl⟩
      · split
        · exact Or.inr ⟨rfl, rfl, rfl⟩
        · exact Or.inl ⟨rfl, rfl, rfl⟩
      · exact Or.inr ⟨rfl, rfl, rfl⟩
  · exact Or.inr ⟨rfl, rfl, rfl⟩

theorem mapFst_overwrite (m : List (String × ExtractionStatus)) (k : String)
    (v : ExtractionStatus) :
    (m.map (fun p => if p.1 = k then (k, v) else p)).map Prod.fst
      = m.map Prod.fst := by
  induction m with
  | nil => rfl
  | cons p t ih => by_cases hp : p.1 = k <;> simp [hp, ih]

theorem any_key_mem (m : List (String × ExtractionStatus)) (k : String)
    (h : m.any (fun p => p.1 = k) = true) : k ∈ m.map Prod.fst := by
  simp only [List.any_eq_true, decide_eq_true_eq] at h
  obtain ⟨p, hp, he⟩ := h
  exact he ▸ List.mem_map_of_mem Prod.fst hp

theorem any_key_not_mem (m : List (String × ExtractionStatus)) (k : String)
    (h : m.any (fun p => p.1 = k) = false) : k ∉ m.map Prod.fst := by
  simp only [List.any_eq_false, decide_eq_true_eq] at h
  intro hk
  obtain ⟨p, hp, he⟩ := List.mem_map.mp hk
  exact h p hp he

theorem dictInsert_keys_mem (m : List (String × ExtractionStatus))
    (k : String) (v : ExtractionStatus) (a : String) :
    a ∈ (dictInsert m k v).map Prod.fst ↔ a ∈ m.map Prod.fst ∨ a = k := by
  unfold dictInsert
  split
  case isTrue h =>
    rw [mapFst_overwrite]
    constructor
    · exact Or.inl
    · rintro (h' | rfl)
      · exact h'
      · exact any_key_mem m a h
  case isFalse h =>
    simp [List.mem_append]

theorem dictInsert_keys_nodup (m : List (String × ExtractionStatus))
    (k : String) (v : ExtractionStatus) (h : (m.map Prod.fst).Nodup) :
    ((dictInsert m k v).map Prod.fst).Nodup := by
  unfold dictInsert
  split
  case isTrue _ =>
    rw [mapFst_overwrite]
    exact h
  case isFalse hf =>
    rw [List.map_append]
    refine List.Nodup.append h (List.nodup_singleton k) ?_
    intro a ha hb
    rw [List.map_singleton, List.mem_singleton] at hb
    subst hb
    rw [Bool.not_eq_true] at hf
    exact any_key_not_mem m _ hf ha

theorem dictInsert_values (m : List (String × ExtractionStatus))
    (k : String) (v : ExtractionStatus) (P : ExtractionStatus → Prop)
    (hm : ∀ p ∈ m, P p.2) (hv : P v) :
    ∀ p ∈ dictInsert m k v, P p.2 := by
  unfold dictInsert
  split
  · intro p hp
    obtain ⟨q, hq, rfl⟩ := List.mem_map.mp hp
    by_cases hqk : q.1 = k
    · rw [if_pos hqk]
      exact hv
    · rw [if_neg hqk]
      exact hm q hq
  · intro p hp
    rcases List.mem_append.mp hp with h' | h'
    · exact hm p h'
    · rw [List.mem_singleton] at h'
      subst h'
      exact hv

/-- The invariant carried through the per-file loop of process_files. -/
theorem process_files_aux (method : String) (world : String → DispatchEnv) :
    ∀ (fs : List String) (acc : List (String × ExtractionStatus)),
      (acc.map Prod.fst).Nodup →
      (∀ p ∈ acc, goodStatus p.2) →
      (((fs.foldl (fun a f => dictInsert a f (extract_details f method (world f)).st) acc).map
          Prod.fst).Nodup) ∧
      (∀ a, a ∈ (fs.foldl (fun a f => dictInsert a f (extract_details f method (world f)).st) acc).map
          Prod.fst ↔ a ∈ acc.map Prod.fst ∨ a ∈ fs) ∧
      (∀ p ∈ fs.foldl (fun a f => dictInsert a f (extract_details f method (world f)).st) acc,
        goodStatus p.2) := by
  intro fs
  induction fs with
  | nil =>
      intro acc h1 h2
      refine ⟨h1, ?_, h2⟩
      simp
  | cons f t ih =>
      intro acc h1 h2
      simp only [List.foldl_cons]
      have h1' := dictInsert_keys_nodup acc f (extract_details f method (world f)).st h1
      have h2' := dictInsert_values acc f (extract_details f method (world f)).st
        goodStatus h2 (extract_details_good f method (world f))
      obtain ⟨g1, g2, g3⟩ := ih (dictInsert acc f (extract_details f method (world f)).st) h1' h2'
      refine ⟨g1, ?_, g3⟩
      intro a
      rw [g2 a, dictInsert_keys_mem]
      simp only [List.mem_cons]
      tauto

theorem extract_details_unreg (file method : String) (e : DispatchEnv)
    (h : ¬ registered method = true) :
    extract_details file method e
      = ⟨⟨method, "failed", none, some "Extractor not found"⟩, false, false, none⟩ := by
  simp [extract_details, h]

theorem extract_details_hasData_error (file method : String)
    (r : ExtractorReturn) (msg : String) (ex : ExportEnv)
    (hreg : registered method = true) (hhd : hasDataOf r = .error msg) :
    extract_details file method ⟨.ok r, ex⟩
      = ⟨⟨method, "failed", none, some msg⟩, true, false, none⟩ := by
  simp [extract_details, hreg, hhd]

theorem extract_details_nodata (file method : String)
    (r : ExtractorReturn) (ex : ExportEnv)
    (hreg : registered method = true) (hhd : hasDataOf r = .ok false) :
    extract_details file method ⟨.ok r, ex⟩
      = ⟨⟨method, "failed", none, some "No data extracted"⟩, true, false, none⟩ := by
  simp [extract_details, hreg, hhd]

theorem extract_details_conv_err (file method : String)
    (r : ExtractorReturn) (msg : String) (ex : ExportEnv)
    (hreg : registered method = true) (hhd : hasDataOf r = .ok true)
    (hcv : convert_df_to_xlsx r ex = .error msg) :
    extract_details file method ⟨.ok r, ex⟩
      = ⟨⟨method, "failed", none, some msg⟩, true, true, none⟩ := by
  simp [extract_details, hreg, hhd, hcv]

theorem extract_details_conv_ok (file method : String)
    (r : ExtractorReturn) (wb : Option Workbook) (ex : ExportEnv)
    (hreg : registered method = true) (hhd : hasDataOf r = .ok true)
    (hcv : convert_df_to_xlsx r ex = .ok wb) :
    extract_details file method ⟨.ok r, ex⟩
      = ⟨⟨method, "success", some r, none⟩, true, true, wb⟩ := by
  simp [extract_details, hreg, hhd, hcv]

/-- Looking up a key other than "has_items" is unaffected by the value
stored at "has_items". -/
theorem dictFind_mid_irrel (key : String) (h : ¬ key = "has_items")
    (pre post : List (String × PdVal)) (v w : PdVal) :
    dictFind key (pre ++ ("has_items", v) :: post)
      = dictFind key (pre ++ ("has_items", w) :: post) := by
  induction pre with
  | nil =>
      rw [List.nil_append, List.nil_append,
        dictFind_cons_ne key "has_items" v post (fun hh => h hh.symm),
        dictFind_cons_ne key "has_items" w post (fun hh => h hh.symm)]
  | cons p t ih =>
      rw [List.cons_append, List.cons_append]
      by_cases hp : p.1 = key
      · rw [← List.cons_append, ← List.cons_append]
        simp [dictFind, hp]
      · rw [dictFind_cons_ne key p.1 p.2 _ hp, dictFind_cons_ne key p.1 p.2 _ hp]
        · exact ih

theorem hasDataOf_hasItems_irrel (pre post : List (String × PdVal)) (b b' : Bool) :
    hasDataOf (.dict (pre ++ ("has_items", .bool b) :: post))
      = hasDataOf (.dict (pre ++ ("has_items", .bool b') :: post)) := by
  simp only [hasDataOf]
  rw [dictFind_mid_irrel "invoice_summary" (by decide) pre post (.bool b) (.bool b'),
      dictFind_mid_irrel "item_details" (by decide) pre post (.bool b) (.bool b')]

theorem filterMapDf_hasItems (pre post : List (String × PdVal)) (b : Bool) :
    ((pre ++ ("has_items", PdVal.bool b) :: post).filterMap fun kv =>
        match kv.2 with
        | .df d => some (kv.1, d)
        | .bool _ => none)
      = ((pre.filterMap fun kv =>
            match kv.2 with
            | .df d => some (kv.1, d)
            | .bool _ => none)
          ++ post.filterMap fun kv =>
            match kv.2 with
            | .df d => some (kv.1, d)
            | .bool _ => none) := by
  rw [List.filterMap_append, List.filterMap_cons]

theorem mainWrite_hasItems_irrel (pre post : List (String × PdVal)) (b b' : Bool) :
    mainWrite (.dict (pre ++ ("has_items", .bool b) :: post))
      = mainWrite (.dict (pre ++ ("has_items", .bool b') :: post)) := by
  simp only [mainWrite, hasKey,
    dictFind_mid_irrel "invoice_summary" (by decide) pre post (.bool b) (.bool b'),
    dictFind_mid_irrel "item_details" (by decide) pre post (.bool b) (.bool b'),
    filterMapDf_hasItems]

theorem fallbackWrite_hasItems_irrel (pre post : List (String × PdVal)) (b b' : Bool) :
    fallbackWrite (.dict (pre ++ ("has_items", .bool b) :: post))
      = fallbackWrite (.dict (pre ++ ("has_items", .bool b') :: post)) := by
  simp only [fallbackWrite]
  rw [dictFind_mid_irrel "invoice_summary" (by decide) pre post (.bool b) (.bool b')]

theorem convert_hasItems_irrel (pre post : List (String × PdVal)) (b b' : Bool)
    (env : ExportEnv) :
    convert_df_to_xlsx (.dict (pre ++ ("has_items", .bool b) :: post)) env
      = convert_df_to_xlsx (.dict (pre ++ ("has_items", .bool b') :: post)) env := by
  simp only [convert_df_to_xlsx]
  rw [mainWrite_hasItems_irrel pre post b b', fallbackWrite_hasItems_irrel pre post b b']

/-! ## Claim C9: myntra tax-split arithmetic -/

/-- C9: in the Myntra item extractor, for every matched item row: when
`tax_type` is not "IGST", `cgst_amount` and `sgst_ugst_amount` each
equal the combined tax amount divided by 2 and `igst_amount` is 0; when
`tax_type` is "IGST", `igst_amount` equals the combined tax amount and
the CGST/SGST amounts are 0. -/
theorem C9_tax_split (m : Myntra.Match) :
    (m.tax_type ≠ "IGST" →
      (Myntra.buildItem m).cgst_amount = m.tax_amt / 2 ∧
      (Myntra.buildItem m).sgst_ugst_amount = m.tax_amt / 2 ∧
      (Myntra.buildItem m).igst_amount = 0) ∧
    (m.tax_type = "IGST" →
      (Myntra.buildItem m).igst_amount = m.tax_amt ∧
      (Myntra.buildItem m).cgst_amount = 0 ∧
      (Myntra.buildItem m).sgst_ugst_amount = 0) := by
  unfold Myntra.buildItem
  by_cases h : m.tax_type = "IGST" <;> simp [h]

/-- C9 witness: a combined tax amount of 100 under CGST/SGST yields
50/50/0, and under IGST yields 0/0/100. -/
theorem C9_tax_split_witness :
    (Myntra.buildItem ⟨"shirt", "61", 5, "CGST", 1, 0, 0, 0, 0, 100, 0⟩).cgst_amount = 50 ∧
    (Myntra.buildItem ⟨"shirt", "61", 5, "CGST", 1, 0, 0, 0, 0, 100, 0⟩).sgst_ugst_amount = 50 ∧
    (Myntra.buildItem ⟨"shirt", "61", 5, "CGST", 1, 0, 0, 0, 0, 100, 0⟩).igst_amount = 0 ∧
    (Myntra.buildItem ⟨"shirt", "61", 5, "IGST", 1, 0, 0, 0, 0, 100, 0⟩).igst_amount = 100 ∧
    (Myntra.buildItem ⟨"shirt", "61", 5, "IGST", 1, 0, 0, 0, 0, 100, 0⟩).cgst_amount = 0 := by
  have h1 := (C9_tax_split ⟨"shirt", "61", 5, "CGST", 1, 0, 0, 0, 0, 100, 0⟩).1 (by decide)
  have h2 := (C9_tax_split ⟨"shirt", "61", 5, "IGST", 1, 0, 0, 0, 0, 100, 0⟩).2 rfl
  refine ⟨?_, ?_, h1.2.2, h2.1, h2.2.1⟩
  · rw [h1.1]; norm_num
  · rw [h1.2.1]; norm_num

/-! ## Claim C7: unknown method dispatch -/

/-- C7: for every file name and method not in the registry, the
Dispatcher returns status "failed" with error exactly "Extractor not
found", never invokes an extractor, never attempts export, and writes no
workbook. -/
theorem C7_unknown_method (file method : String) (e : DispatchEnv)
    (h : registered method = false) :
    (extract_details file method e).st.status = "failed" ∧
    (extract_details file method e).st.error = some "Extractor not found" ∧
    (extract_details file method e).calledExtractor = false ∧
    (extract_details file method e).exportAttempted = false ∧
    (extract_details file method e).workbook = none := by
  unfold extract_details
  simp [h]

/-- C7 witness: dispatching the unregistered tag "nonexistent_vendor"
gives failed / "Extractor not found" with no side effects. -/
theorem C7_unknown_method_witness :
    registered "nonexistent_vendor" = false ∧
    (extract_details "a.pdf" "nonexistent_vendor" ⟨.ok emptyResult, cleanExport⟩).st.error
      = some "Extractor not found" ∧
    (extract_details "a.pdf" "nonexistent_vendor" ⟨.ok emptyResult, cleanExport⟩).calledExtractor
      = false := by
  have h := C7_unknown_method "a.pdf" "nonexistent_vendor"
    ⟨.ok emptyResult, cleanExport⟩ (by decide)
  exact ⟨by decide, h.2.1, h.2.2.1⟩

/-! ## Claim C1: the has_items invariant -/

/-- C1 counterexample: amazon.get_details computes `has_items` from the
extracted-table count, not from `item_details`. When extraction succeeds
with one table but re-reading the saved workbook raises, the result has
`has_items = true` while `item_details` is empty, so the invariant
"has_items iff item_details non-empty" is false for the amazon vendor
extractor at this input. -/
theorem C1_counterexample :
    Amazon.get_details
        ⟨some ([("vendor", "Amazon")], [Df.mk ["A"] [[Cell.str "x"]]]),
         some "read failed"⟩
      = .ok (.dict [("invoice_summary", .df (df1row [("vendor", "Amazon")])),
                    ("item_details", .df Df.emptyDf),
                    ("has_items", .bool true)]) ∧
    Df.emptyDf.empty = true ∧
    hasItemsConsistent (.dict
      [("invoice_summary", .df (df1row [("vendor", "Amazon")])),
       ("item_details", .df Df.emptyDf),
       ("has_items", .bool true)]) = false := by
  refine ⟨rfl, rfl, by decide⟩

/-- C1 amended: for the myntra, onemg, instamart and universal1
extractors, every result returned (without raising) has `has_items` true
iff `item_details` is non-empty; the amazon extractor instead computes
`has_items` from its extracted-table count, which agrees with the
invariant only when the workbook read-back does not raise (given that
extract_tables keeps only non-empty tables). -/
theorem C1_amended_has_items (eM : Myntra.Env) (eO : Onemg.Env)
    (eI : Instamart.Env) (eU : Universal1.Env) :
    (∀ r, Myntra.get_details eM = .ok r → hasItemsConsistent r = true) ∧
    (∀ r, Onemg.get_details eO = .ok r → hasItemsConsistent r = true) ∧
    (∀ r, Instamart.get_details eI = .ok r → hasItemsConsistent r = true) ∧
    (∀ r, Universal1.get_details eU = .ok r → hasItemsConsistent r = true) ∧
    (∀ header tables rb r,
      Amazon.get_details ⟨some (header, tables), rb⟩ = .ok r →
      rb = none → (∀ t ∈ tables, t.empty = false) →
      hasItemsConsistent r = true) ∧
    (∀ rb r, Amazon.get_details ⟨none, rb⟩ = .ok r →
      hasItemsConsistent r = true) := by
  refine ⟨?_, ?_, ?_, ?_, ?_, ?_⟩
  · intro r hr
    unfold Myntra.get_details at hr
    simp only [Except.ok.injEq] at hr
    subst hr
    split
    · decide
    · split
      · decide
      · split
        · decide
        · simp [hasItemsConsistent, dictFind]
  · intro r hr
    unfold Onemg.get_details at hr
    simp only [Except.ok.injEq] at hr
    subst hr
    split
    · decide
    · split
      · decide
      · simp [hasItemsConsistent, dictFind]
  · intro r hr
    unfold Instamart.get_details at hr
    split at hr
    · simp only [Except.ok.injEq] at hr; subst hr; decide
    · split at hr
      · exact absurd hr (by simp)
      · exact absurd hr (by simp)
      · simp only [Except.ok.injEq] at hr
        subst hr
        simp [hasItemsConsistent, dictFind]
  · intro r hr
    unfold Universal1.get_details at hr
    split at hr
    · simp only [Except.ok.injEq] at hr; subst hr; decide
    · split at hr
      · exact absurd hr (by simp)
      · split at hr
        · exact absurd hr (by simp)
        · split at hr
          · exact absurd hr (by simp)
          · simp only [Except.ok.injEq] at hr
            subst hr
            simp [hasItemsConsistent, dictFind]
  · intro header tables rb r hr hrb htab
    subst hrb
    unfold Amazon.get_details at hr
    simp only [Except.ok.injEq] at hr
    subst hr
    match tables, htab with
    | [], _ => exact hasItemsConsistent_mk _ Df.emptyDf
    | t :: ts, htab =>
        have ht : t.empty = false := htab t (by simp)
        simp [hasItemsConsistent, dictFind, ht]
  · intro rb r hr
    unfold Amazon.get_details at hr
    simp only [Except.ok.injEq] at hr
    subst hr
    decide

/-- C1 amended witness: concrete environments for each extractor on
which the consistency checks of the amended claim evaluate to true. -/
theorem C1_amended_has_items_witness :
    hasItemsConsistent emptyResult = true ∧
    (∀ r, Amazon.get_details
        ⟨some ([("vendor", "Amazon")], [Df.mk ["A"] [[Cell.str "x"]]]), none⟩
          = .ok r → hasItemsConsistent r = true) := by
  have h := C1_amended_has_items ⟨false, "", none, [], []⟩
    ⟨false, none, [], Df.emptyDf⟩ ⟨false, .ok none, [], Df.emptyDf⟩
    ⟨false, none, none, none, [], []⟩
  refine ⟨by decide, ?_⟩
  intro r hr
  exact h.2.2.2.2.1 [("vendor", "Amazon")] [Df.mk ["A"] [[Cell.str "x"]]]
    none r hr rfl (by decide)

/-! ## Claim C3: extractors never raise -/

/-- C3 counterexample: `get_details` of the instamart and universal1
extractors is not exception-safe. With the file present, a PDF-open
failure propagates out of instamart.get_details (no try/except wraps
extract_instamart_invoice), and a model-load failure propagates out of
universal1.get_details — refuting "every internal error is caught inside
the extractor". -/
theorem C3_counterexample :
    Instamart.get_details ⟨true, .error "PDFSyntaxError: malformed PDF", [], Df.emptyDf⟩
      = .error "PDFSyntaxError: malformed PDF" ∧
    Universal1.get_details ⟨true, some "FileNotFoundError: vectorizer.pkl", none, none, [], []⟩
      = .error "FileNotFoundError: vectorizer.pkl" := by
  exact ⟨rfl, rfl⟩

/-- C3 amended: the myntra and onemg extractors wrap their bodies in
try/except and never raise, converting internal errors into the empty
result; the instamart and universal1 extractors propagate exceptions
raised after their existence check (PDF opening, model loading) to the
Dispatcher. -/
theorem C3_amended_exception_policy :
    (∀ e : Myntra.Env, (Myntra.get_details e).isOk = true) ∧
    (∀ e : Myntra.Env, e.bodyError.isSome = true →
      Myntra.get_details e = .ok emptyResult) ∧
    (∀ e : Onemg.Env, (Onemg.get_details e).isOk = true) ∧
    (∀ e : Onemg.Env, e.bodyError.isSome = true →
      Onemg.get_details e = .ok emptyResult) ∧
    (∀ (e : Instamart.Env) (msg : String), e.fileExists = true →
      e.openOutcome = .error msg → Instamart.get_details e = .error msg) ∧
    (∀ (e : Universal1.Env) (msg : String), e.fileExists = true →
      e.modelLoadError = some msg → Universal1.get_details e = .error msg) := by
  refine ⟨fun e => rfl, ?_, fun e => rfl, ?_, ?_, ?_⟩
  · intro e h
    obtain ⟨msg, hmsg⟩ := Option.isSome_iff_exists.mp h
    unfold Myntra.get_details
    rw [hmsg]
    split
    · rfl
    · split
      · rfl
      · rfl
  · intro e h
    obtain ⟨msg, hmsg⟩ := Option.isSome_iff_exists.mp h
    unfold Onemg.get_details
    rw [hmsg]
  · intro e msg hf ho
    simp [Instamart.get_details, hf, ho]
  · intro e msg hf hm
    simp [Universal1.get_details, hf, hm]

/-- C3 amended witness: concrete inputs for each clause of the amended
exception policy. -/
theorem C3_amended_exception_policy_witness :
    Myntra.get_details ⟨true, "text", some "ValueError: bad float", [("k", "v")], []⟩
      = .ok emptyResult ∧
    Onemg.get_details ⟨true, some "IndexError", [("Vendor", "1mg")], Df.emptyDf⟩
      = .ok emptyResult ∧
    Instamart.get_details ⟨true, .error "bad pdf", [], Df.emptyDf⟩ = .error "bad pdf" ∧
    Universal1.get_details ⟨true, some "missing pkl", none, none, [], []⟩
      = .error "missing pkl" := by
  refine ⟨?_, ?_, ?_, ?_⟩
  · exact C3_amended_exception_policy.2.1 _ rfl
  · exact C3_amended_exception_policy.2.2.2.1 _ rfl
  · exact C3_amended_exception_policy.2.2.2.2.1 _ "bad pdf" rfl rfl
  · exact C3_amended_exception_policy.2.2.2.2.2 _ "missing pkl" rfl rfl

/-! ## Claim C2: dispatcher success/failed decision -/

/-- C2 counterexample: the extractor returns normally with a non-empty
`item_details` table, yet the Dispatcher reports status "failed",
because the export call raised (directory creation failed) and back.py's
except clause also covers the export — refuting "success iff at least
one table non-empty whenever the extractor returns normally". -/
theorem C2_counterexample :
    hasDataOf (.dict [("invoice_summary", .df Df.emptyDf),
                      ("item_details", .df (Df.mk ["Item"] [[Cell.str "Widget"]])),
                      ("has_items", .bool true)]) = .ok true ∧
    (extract_details "a.pdf" "onemg"
        ⟨.ok (.dict [("invoice_summary", .df Df.emptyDf),
                     ("item_details", .df (Df.mk ["Item"] [[Cell.str "Widget"]])),
                     ("has_items", .bool true)]),
         ⟨some "PermissionError: cannot create extracted_excels", none, none⟩⟩).st.status
      = "failed" := by
  exact ⟨by decide, by decide⟩

/-- C2 amended: provided the export step does not raise (only its
directory-creation step can), a normally-returning extractor yields
status "success" iff at least one table is non-empty, uniformly for the
two-table dict shape and the legacy single-table shape; and an extractor
exception yields status "failed" with the exception message as error. -/
theorem C2_amended_dispatch_status :
    (∀ (file method : String) (outcome : Except String ExtractorReturn)
       (ex : ExportEnv) (entries : List (String × PdVal)) (d1 d2 : Df),
      registered method = true →
      outcome = .ok (.dict entries) →
      dictFind "invoice_summary" entries = some (.df d1) →
      dictFind "item_details" entries = some (.df d2) →
      ex.makedirsError = none →
      ((extract_details file method ⟨outcome, ex⟩).st.status = "success" ↔
        (d1.empty = false ∨ d2.empty = false))) ∧
    (∀ (file method : String) (outcome : Except String ExtractorReturn)
       (ex : ExportEnv) (d : Df),
      registered method = true →
      outcome = .ok (.frame d) →
      ex.makedirsError = none →
      ((extract_details file method ⟨outcome, ex⟩).st.status = "success" ↔
        d.empty = false)) ∧
    (∀ (file method : String) (ex : ExportEnv) (msg : String),
      registered method = true →
      (extract_details file method ⟨.error msg, ex⟩).st.status = "failed" ∧
      (extract_details file method ⟨.error msg, ex⟩).st.error = some msg) := by
  refine ⟨?_, ?_, ?_⟩
  · intro file method outcome ex entries d1 d2 hreg hout h1 h2 hmk
    have hhd := hasDataOf_dict entries d1 d2 h1 h2
    rw [extract_details_ok_st file method outcome ex (.dict entries)
          (!d1.empty || !d2.empty) hreg hout hhd hmk]
    cases he1 : d1.empty <;> cases he2 : d2.empty <;> simp
  · intro file method outcome ex d hreg hout hmk
    rw [extract_details_ok_st file method outcome ex (.frame d)
          (!d.empty) hreg hout rfl hmk]
    cases he : d.empty <;> simp
  · intro file method ex msg hreg
    rw [extract_details_error_st file method msg ex hreg]
    exact ⟨rfl, rfl⟩

/-- C2 amended witness: a two-table result with one non-empty table
dispatched under a registered tag with a clean export reports success; a
raising extractor reports failed with the raised message. -/
theorem C2_amended_dispatch_status_witness :
    (extract_details "w.pdf" "zomato"
        ⟨.ok (.dict [("invoice_summary", .df Df.emptyDf),
                     ("item_details", .df (Df.mk ["Item"] [[Cell.str "Widget"]])),
                     ("has_items", .bool true)]),
         cleanExport⟩).st.status = "success" ∧
    (extract_details "w.pdf" "zomato" ⟨.error "boom", cleanExport⟩).st.error
      = some "boom" := by
  refine ⟨?_, ?_⟩
  · exact (C2_amended_dispatch_status.1 "w.pdf" "zomato" _ cleanExport _
      Df.emptyDf (Df.mk ["Item"] [[Cell.str "Widget"]]) (by decide) rfl
      (by decide) (by decide) rfl).mpr (Or.inr (by decide))
  · exact (C2_amended_dispatch_status.2.2 "w.pdf" "zomato" cleanExport "boom"
      (by decide)).2

/-! ## Claim C5: export failure does not flip a successful extraction -/

/-- C5 counterexample: an extraction with data followed by an export
call that raises (directory creation fails before the Exporter's try
block) makes the Dispatcher return status "failed" with the export
exception as error — refuting "export failure never changes the
returned status". -/
theorem C5_counterexample :
    hasDataOf (.dict [("invoice_summary", .df (Df.mk ["Invoice_Number"] [[Cell.str "INV-1"]])),
                      ("item_details", .df Df.emptyDf),
                      ("has_items", .bool false)]) = .ok true ∧
    (extract_details "b.pdf" "myntra"
        ⟨.ok (.dict [("invoice_summary", .df (Df.mk ["Invoice_Number"] [[Cell.str "INV-1"]])),
                     ("item_details", .df Df.emptyDf),
                     ("has_items", .bool false)]),
         ⟨some "OSError: disk full", none, none⟩⟩).st.status = "failed" ∧
    (extract_details "b.pdf" "myntra"
        ⟨.ok (.dict [("invoice_summary", .df (Df.mk ["Invoice_Number"] [[Cell.str "INV-1"]])),
                     ("item_details", .df Df.emptyDf),
                     ("has_items", .bool false)]),
         ⟨some "OSError: disk full", none, none⟩⟩).st.error
      = some "OSError: disk full" := by
  exact ⟨by decide, by decide, by decide⟩

/-- C5 amended: every export failure that the Exporter catches itself
(the full multi-sheet write raising, and even the single-sheet fallback
also raising) leaves a data-bearing extraction reported as "success"
with the extracted data; only an exception escaping the Exporter (its
directory-creation step) flips the status. -/
theorem C5_amended_export_no_flip (file method : String)
    (outcome : Except String ExtractorReturn) (ex : ExportEnv)
    (r : ExtractorReturn)
    (hreg : registered method = true)
    (hout : outcome = .ok r)
    (hhd : hasDataOf r = .ok true)
    (hmk : ex.makedirsError = none) :
    (extract_details file method ⟨outcome, ex⟩).st.status = "success" ∧
    (extract_details file method ⟨outcome, ex⟩).st.data = some r := by
  rw [extract_details_ok_st file method outcome ex r true hreg hout hhd hmk]
  exact ⟨rfl, rfl⟩

/-- C5 amended witness: both the writer and the fallback write fail, yet
the status stays "success" with the data attached. -/
theorem C5_amended_export_no_flip_witness :
    (extract_details "c.pdf" "flipkart"
        ⟨.ok (.frame (Df.mk ["A"] [[Cell.str "x"]])),
         ⟨none, some "writer failed", some "fallback failed"⟩⟩).st.status
      = "success" := by
  exact (C5_amended_export_no_flip "c.pdf" "flipkart" _
    ⟨none, some "writer failed", some "fallback failed"⟩
    (.frame (Df.mk ["A"] [[Cell.str "x"]])) (by decide) rfl (by decide) rfl).1

/-! ## Claim C4: missing-file behavior -/

/-- C4 counterexample: a missing file does yield an empty result from
the extractor, but the Dispatcher then reports error "No data
extracted", which does not contain "not found" — refuting the claimed
surfaced error of the form "... not found". -/
theorem C4_counterexample :
    Myntra.get_details ⟨false, "", none, [], []⟩ = .ok emptyResult ∧
    (extract_details "missing.pdf" "myntra" ⟨.ok emptyResult, cleanExport⟩).st.status
      = "failed" ∧
    (extract_details "missing.pdf" "myntra" ⟨.ok emptyResult, cleanExport⟩).st.error
      = some "No data extracted" ∧
    strContains "No data extracted" "not found" = false := by
  refine ⟨rfl, by decide, by decide, by decide⟩

/-- C4 amended: every modelled extractor returns an ExtractionResult
with both tables empty and `has_items` false on a missing file, and the
Dispatcher surfaces this as status "failed" with error "No data
extracted" (the error "Extractor not found" only arises for unknown
method tags; no "... not found" error is produced for missing files). -/
theorem C4_amended_missing_file :
    (∀ e : Myntra.Env, e.fileExists = false → Myntra.get_details e = .ok emptyResult) ∧
    (∀ e : Onemg.Env, e.fileExists = false → Onemg.get_details e = .ok emptyResult) ∧
    (∀ e : Instamart.Env, e.fileExists = false → Instamart.get_details e = .ok emptyResult) ∧
    (∀ e : Universal1.Env, e.fileExists = false → Universal1.get_details e = .ok emptyResult) ∧
    (∀ rb, Amazon.get_details ⟨none, rb⟩ = .ok emptyResult) ∧
    (∀ (file method : String) (ex : ExportEnv), registered method = true →
      (extract_details file method ⟨.ok emptyResult, ex⟩).st.status = "failed" ∧
      (extract_details file method ⟨.ok emptyResult, ex⟩).st.error
        = some "No data extracted") := by
  have h0 : hasDataOf emptyResult = .ok false := by decide
  refine ⟨?_, ?_, ?_, ?_, fun rb => rfl, ?_⟩
  · intro e h
    simp [Myntra.get_details, h]
  · intro e h
    unfold Onemg.get_details
    split
    · rfl
    · simp [h]
  · intro e h
    simp [Instamart.get_details, h]
  · intro e h
    simp [Universal1.get_details, h]
  · intro file method ex hreg
    simp [extract_details, hreg, h0]

/-- C4 amended witness: the myntra extractor on a concrete missing file,
dispatched under the registered "myntra" tag. -/
theorem C4_amended_missing_file_witness :
    Myntra.get_details ⟨false, "anything", none, [("k", "v")], []⟩ = .ok emptyResult ∧
    (extract_details "gone.pdf" "myntra" ⟨.ok emptyResult, cleanExport⟩).st.error
      = some "No data extracted" := by
  refine ⟨C4_amended_missing_file.1 _ rfl, ?_⟩
  exact (C4_amended_missing_file.2.2.2.2.2 "gone.pdf" "myntra" cleanExport (by decide)).2

/-! ## Claim C6: exporter sheet layout -/

/-- C6 counterexample: a two-table result whose `invoice_summary` is
empty is written as a workbook with only the "Item Details" sheet — no
invoice-summary sheet is created, refuting "the workbook always
contains both sheets". -/
theorem C6_counterexample :
    convert_df_to_xlsx
        (.dict [("invoice_summary", .df Df.emptyDf),
                ("item_details", .df (Df.mk ["Item"] [[Cell.str "Widget"]])),
                ("has_items", .bool true)]) cleanExport
      = .ok (some [("Item Details", Df.mk ["Item"] [[Cell.str "Widget"]])]) ∧
    (([("Item Details", Df.mk ["Item"] [[Cell.str "Widget"]])].map Prod.fst).contains
        "Invoice Summary") = false := by
  exact ⟨by decide, by decide⟩

/-- C6 amended: for every two-table result written without a writer
error, the workbook always contains an "Item Details" sheet — holding
the items when non-empty and the placeholder row "No item details
found" when empty — while the "Invoice Summary" sheet is present iff
`invoice_summary` is non-empty. -/
theorem C6_amended_exporter_sheets
    (entries : List (String × PdVal)) (d1 d2 : Df) (env : ExportEnv)
    (h1 : dictFind "invoice_summary" entries = some (.df d1))
    (h2 : dictFind "item_details" entries = some (.df d2))
    (hmk : env.makedirsError = none) (hw : env.writerError = none) :
    convert_df_to_xlsx (.dict entries) env = .ok (some (twoTableSheets d1 d2)) ∧
    ((twoTableSheets d1 d2).map Prod.fst).contains "Item Details" = true ∧
    ((twoTableSheets d1 d2).map Prod.fst).contains "Invoice Summary" = (!d1.empty) ∧
    (d2.empty = true → ("Item Details", placeholderDf) ∈ twoTableSheets d1 d2) ∧
    (d2.empty = false → ("Item Details", d2) ∈ twoTableSheets d1 d2) := by
  have hk1 : hasKey "invoice_summary" entries = true := by simp [hasKey, h1]
  have hk2 : hasKey "item_details" entries = true := by simp [hasKey, h2]
  have hmain : mainWrite (.dict entries) = .ok (twoTableSheets d1 d2) := by
    simp [mainWrite, hk1, hk2, h1, h2, dfOrAttrError]
  refine ⟨?_, ?_, ?_, ?_, ?_⟩
  · simp only [convert_df_to_xlsx, hmk, hw, hmain]
  · cases he1 : d1.empty <;> cases he2 : d2.empty <;>
      simp [twoTableSheets, he1, he2]
  · cases he1 : d1.empty <;> cases he2 : d2.empty <;>
      simp [twoTableSheets, he1, he2]
  · intro he2
    cases he1 : d1.empty <;> simp [twoTableSheets, he1, he2]
  · intro he2
    cases he1 : d1.empty <;> simp [twoTableSheets, he1, he2]

/-- C6 amended witness: the all-empty two-table result is exported as a
workbook whose only sheet is the "Item Details" placeholder sheet. -/
theorem C6_amended_exporter_sheets_witness :
    convert_df_to_xlsx emptyResult cleanExport
      = .ok (some (twoTableSheets Df.emptyDf Df.emptyDf)) ∧
    ("Item Details", placeholderDf) ∈ twoTableSheets Df.emptyDf Df.emptyDf := by
  have h := C6_amended_exporter_sheets
    [("invoice_summary", .df Df.emptyDf), ("item_details", .df Df.emptyDf),
     ("has_items", .bool false)] Df.emptyDf Df.emptyDf cleanExport
    (by decide) (by decide) rfl rfl
  exact ⟨h.1, h.2.2.2.1 (by decide)⟩

/-! ## Claim C8: process_files batch contract -/

/-- C8: process_files (a total function: it never raises) returns a
mapping with no duplicate keys, whose keys are exactly the input file
names, and every entry is success-with-data or failed-with-error. -/
theorem C8_process_files_contract (file_list : List String) (method : String)
    (world : String → DispatchEnv) :
    ((process_files file_list method world).map Prod.fst).Nodup ∧
    (∀ f, f ∈ (process_files file_list method world).map Prod.fst ↔ f ∈ file_list) ∧
    (∀ p ∈ process_files file_list method world, goodStatus p.2) := by
  obtain ⟨g1, g2, g3⟩ :=
    process_files_aux method world file_list [] (by simp) (by simp)
  refine ⟨g1, ?_, g3⟩
  intro f
  rw [process_files, g2 f]
  simp

/-- C8 witness: a concrete two-file batch, with the membership and
per-entry contract facts instantiated. -/
theorem C8_process_files_contract_witness :
    ("a.pdf" ∈ (process_files ["a.pdf", "b.pdf"] "myntra"
        (fun _ => ⟨.ok emptyResult, cleanExport⟩)).map Prod.fst) ∧
    goodStatus
      (extract_details "a.pdf" "myntra" ⟨.ok emptyResult, cleanExport⟩).st := by
  have h := C8_process_files_contract ["a.pdf", "b.pdf"] "myntra"
    (fun _ => ⟨.ok emptyResult, cleanExport⟩)
  refine ⟨(h.2.1 "a.pdf").mpr (by simp), ?_⟩
  exact h.2.2 ("a.pdf", (extract_details "a.pdf" "myntra" ⟨.ok emptyResult, cleanExport⟩).st)
    (by decide)

/-! ## Claim C10: dispatch and export ignore the has_items field -/

/-- C10: for every two-table dict result, changing only the value of
its `has_items` entry changes neither the Dispatcher's status/error
decision nor the workbook the Exporter writes. -/
theorem C10_has_items_noninterference (file method : String) (ex : ExportEnv)
    (pre post : List (String × PdVal)) (b b' : Bool) :
    (extract_details file method
        ⟨.ok (.dict (pre ++ ("has_items", .bool b) :: post)), ex⟩).st.status
      = (extract_details file method
          ⟨.ok (.dict (pre ++ ("has_items", .bool b') :: post)), ex⟩).st.status ∧
    (extract_details file method
        ⟨.ok (.dict (pre ++ ("has_items", .bool b) :: post)), ex⟩).st.error
      = (extract_details file method
          ⟨.ok (.dict (pre ++ ("has_items", .bool b') :: post)), ex⟩).st.error ∧
    (extract_details file method
        ⟨.ok (.dict (pre ++ ("has_items", .bool b) :: post)), ex⟩).workbook
      = (extract_details file method
          ⟨.ok (.dict (pre ++ ("has_items", .bool b') :: post)), ex⟩).workbook := by
  by_cases hreg : registered method = true
  · have hhd := hasDataOf_hasItems_irrel pre post b b'
    have hcv := convert_hasItems_irrel pre post b b' ex
    rcases h : hasDataOf (.dict (pre ++ ("has_items", .bool b') :: post)) with msg | bb
    · rw [extract_details_hasData_error file method _ msg ex hreg (hhd.trans h),
          extract_details_hasData_error file method _ msg ex hreg h]
      exact ⟨rfl, rfl, rfl⟩
    · cases bb
      · rw [extract_details_nodata file method _ ex hreg (hhd.trans h),
            extract_details_nodata file method _ ex hreg h]
        exact ⟨rfl, rfl, rfl⟩
      · rcases h2 : convert_df_to_xlsx
            (.dict (pre ++ ("has_items", .bool b') :: post)) ex with msg2 | wb
        · rw [extract_details_conv_err file method _ msg2 ex hreg (hhd.trans h)
                (hcv.trans h2),
              extract_details_conv_err file method _ msg2 ex hreg h h2]
          exact ⟨rfl, rfl, rfl⟩
        · rw [extract_details_conv_ok file method _ wb ex hreg (hhd.trans h)
                (hcv.trans h2),
              extract_details_conv_ok file method _ wb ex hreg h h2]
          exact ⟨rfl, rfl, rfl⟩
  · rw [extract_details_unreg file method _ hreg,
        extract_details_unreg file method _ hreg]
    exact ⟨rfl, rfl, rfl⟩

end InvoiceExtractor
